import Mathlib

/-!
Verification of the Survey Assist API classification engine
(`api/routes/v1/classify.py`, `api/services/soc_llm_service.py`,
`api/services/sic_rephrase_client.py`) via a shallow embedding in Lean.

External collaborators (vector-store search, the two LLM endpoints, the
rephrase table lookup) are modelled as explicit outcome values or oracle
functions passed to the embedded control flow; Python exceptions are
modelled with `Except` over a `PyErr` type distinguishing `HTTPException`
from other exceptions.  Outbound calls performed by a flow are returned as
an explicit event trace alongside the result.
-/

namespace SurveyAssist

/-- Python exception model: either a FastAPI `HTTPException` (status code and
detail rendered as a string) or any other exception carrying a message. -/
inductive PyErr where
  | http (status : Nat) (detail : String)
  | exc (msg : String)
deriving DecidableEq

/-- Rendering of an exception as Python `str(e)` does
(for `HTTPException`, "status: detail"). -/
def PyErr.toStr : PyErr → String
  | .http s d => toString s ++ ": " ++ d
  | .exc m => m

/-- Status code of an error outcome, if the outcome is an `HTTPException`. -/
def errStatus {α : Type} : Except PyErr α → Option Nat
  | .error (.http s _) => some s
  | _ => none

/-! ### Data model (`api/models/classify.py` and the generic models used by
the route module) -/

/-- `ClassificationType` enum: `sic`, `soc` or `sic_soc`. -/
inductive ClassificationType where
  | sic
  | soc
  | sic_soc
deriving DecidableEq

/-- Serialised value of the classification type enum. -/
def ClassificationType.toStr : ClassificationType → String
  | .sic => "sic"
  | .soc => "soc"
  | .sic_soc => "sic_soc"

/-- Modelled from the spec: per-domain options sub-block, "currently only a
boolean `rephrased` per domain" (spec section 3); the options models are
absent from the models module in the source tree, though the route code
reads `options.sic.rephrased` and `options.soc.rephrased`. -/
structure DomainOptions where
  rephrased : Bool
deriving DecidableEq

/-- Modelled from the spec: the optional `options` block of a
`ClassificationRequest`, holding optional per-domain sub-blocks. -/
structure ClassificationOptions where
  sic : Option DomainOptions
  soc : Option DomainOptions
deriving DecidableEq

/-- `ClassificationRequest`: `llm` selector, type, free-text fields, and the
optional `prompt_version` and `options` fields (the last two are modelled
from the spec, being absent from the models module in the source tree). -/
structure ClassificationRequest where
  llm : String
  type : ClassificationType
  job_title : String
  job_description : String
  org_description : Option String
  prompt_version : Option String
  options : Option ClassificationOptions
deriving DecidableEq

/-- Generic candidate `{code, descriptive, likelihood}`; the likelihood is a
numeric confidence score, modelled as a rational. -/
structure GenericCandidate where
  code : String
  descriptive : String
  likelihood : ℚ
deriving DecidableEq

/-- Generic classification result for one domain:
`{type, classified, followup, code, description, candidates, reasoning}`. -/
structure GenericClassificationResult where
  type : String
  classified : Bool
  followup : Option String
  code : Option String
  description : Option String
  candidates : List GenericCandidate
  reasoning : String
deriving DecidableEq

/-- `applied_options` map of the response metadata: the `rephrased` flag per
domain, present only for a domain that was requested and had an options
sub-block. -/
structure AppliedOptions where
  sic : Option Bool
  soc : Option Bool
deriving DecidableEq

/-- Response metadata: the requested LLM selector and the applied options. -/
structure ResponseMeta where
  llm : String
  applied_options : AppliedOptions
deriving DecidableEq

/-- Modelled from the spec: the two response shapes of the classify endpoint,
`GenericClassificationResponse` (with a `meta` field) and
`GenericClassificationResponseWithoutMeta` (whose serialised form has no
`meta` key at all); the two model classes are absent from the models module
in the source tree, though the route constructs both. -/
inductive ClassifyResponse where
  | withMeta (requested_type : String) (results : List GenericClassificationResult)
      (meta : ResponseMeta)
  | withoutMeta (requested_type : String) (results : List GenericClassificationResult)
deriving DecidableEq

/-- The `meta` field of a response, when the variant carries one. -/
def ClassifyResponse.metaField : ClassifyResponse → Option ResponseMeta
  | .withMeta _ _ m => some m
  | .withoutMeta _ _ => none

/-- Modelled from the spec: the serialised form of the without-meta variant
contains no `meta` key at all, so key presence coincides with the variant. -/
def ClassifyResponse.hasMetaKey (r : ClassifyResponse) : Bool :=
  r.metaField.isSome

/-- Results list of a response. -/
def ClassifyResponse.results : ClassifyResponse → List GenericClassificationResult
  | .withMeta _ rs _ => rs
  | .withoutMeta _ rs => rs

/-! ### Configuration constants (`api/config.py`) -/

def PROMPT_VERSION_V1V2 : String := "v1v2"

def PROMPT_VERSION_V3 : String := "v3"

def DEFAULT_PROMPT_VERSION : String := PROMPT_VERSION_V1V2

def VALID_PROMPT_VERSIONS : List String := [PROMPT_VERSION_V1V2, PROMPT_VERSION_V3]

/-! ### Utilities (`utils/survey.py`) -/

/-- Model of Python `str.strip()`: leading and trailing whitespace removed
(written over the character list so that it evaluates on closed inputs). -/
def pyStrip (s : String) : String :=
  String.mk ((s.toList.dropWhile Char.isWhitespace).reverse.dropWhile
    Char.isWhitespace).reverse

def DEFAULT_TRUNCATE_LEN : Nat := 8

/-- `truncate_identifier`: empty string for `None`/empty input, otherwise the
value, truncated with a "..." suffix when longer than the maximum length. -/
def truncateIdentifier (value : Option String) : String :=
  match value with
  | none => ""
  | some v =>
    if v = "" then ""
    else if v.length ≤ DEFAULT_TRUNCATE_LEN then v
    else v.take DEFAULT_TRUNCATE_LEN ++ "..."

/-! ### External call outcomes and event traces -/

/-- One entry of a vector-store search result, projected to
`{code, title, distance}` as the route does. -/
structure SearchResult where
  code : String
  title : String
  distance : ℚ
deriving DecidableEq

/-- Alternative candidate of the unambiguous-step LLM response
(`class_code`, `class_descriptive`, `likelihood`). -/
structure AltCandidate where
  class_code : String
  class_descriptive : String
  likelihood : ℚ
deriving DecidableEq

/-- Outbound call performed by a classification flow, with the arguments it
was given. -/
inductive CallEvent where
  | sicSearch (industry : Option String) (jobTitle jobDescription correlationId : String)
  | socSearch (industry : Option String) (jobTitle jobDescription correlationId : String)
  | llmSaRagSicCode (industry : String) (shortList : List SearchResult)
      (jobTitle jobDescription : String)
  | llmUnambiguousSicCode (industry : String) (shortList : List SearchResult)
      (jobTitle jobDescription : String)
  | llmFormulateOpenQuestion (industry : String) (jobTitle jobDescription : String)
      (llmOutput : List AltCandidate)
deriving DecidableEq

/-- Response of the single-shot SIC LLM endpoint (`sa_rag_sic_code`), with
the per-candidate payload. -/
structure SicCandidateResp where
  sic_code : String
  sic_descriptive : String
  likelihood : ℚ
deriving DecidableEq

/-- Response object of the single-shot SIC LLM call, with the fields the
route reads via `getattr` (optional fields model a missing or `None`
attribute, defaulting as the route's `getattr` defaults do). -/
structure SinglePromptResponse where
  codable : Bool
  classified : Bool
  sic_code : Option String
  sic_descriptive : Option String
  followup : Option String
  sic_candidates : Option (List SicCandidateResp)
  reasoning : String
deriving DecidableEq

/-- Response object of the unambiguous-step LLM call. -/
structure UnambiguousResponse where
  codable : Bool
  class_code : Option String
  class_descriptive : Option String
  alt_candidates : List AltCandidate
  reasoning : String
deriving DecidableEq

/-- Response object of the formulate-open-question LLM call. -/
structure OpenQuestionResponse where
  followup : Option String
deriving DecidableEq

/-- Python truthiness of an optional string (`None` and `""` are falsy). -/
def truthyOptStr : Option String → Bool
  | some s => s ≠ ""
  | none => false

/-- Outcomes of the external calls a SIC classification flow can make: the
vector-store search and the three LLM endpoints, plus the rephrase lookup
(which, like any Python call, may raise). -/
structure SicWorld where
  searchOutcome : Except PyErr (List SearchResult)
  singleOutcome : Except String SinglePromptResponse
  unambiguousOutcome : Except String UnambiguousResponse
  openQuestionOutcome : Except String OpenQuestionResponse
  rephraseLookup : String → Except String (Option String)

/-! ### Rephrase client (`api/services/sic_rephrase_client.py`) -/

def FOUR_DIGIT_SIC_CODE : Nat := 4

/-- `get_rephrased_description`: strip the code, try an exact table match,
then (for 4-digit codes) retry with a leading zero padded to 5 digits,
returning `none` when neither is present. -/
def getRephrasedDescription (table : List (String × String)) (sic_code : String) :
    Option String :=
  let c := pyStrip sic_code
  match table.lookup c with
  | some d => some d
  | none =>
    if c.length = FOUR_DIGIT_SIC_CODE then
      table.lookup ("0" ++ c)
    else none

/-! ### Rephrasing application (`_apply_rephrasing` in the route module) -/

/-- The rephrasing-enabled decision: `options.sic.rephrased` when both the
options block and its `sic` sub-block are present, `True` otherwise. -/
def rephrasingEnabled (options : Option ClassificationOptions) : Bool :=
  match options with
  | some o =>
    match o.sic with
    | some s => s.rephrased
    | none => true
  | none => true

/-- One loop iteration of `_apply_rephrasing`: replace the description when
the lookup produced a truthy (non-`None`, non-empty) string, keep the
original candidate otherwise. -/
def rephraseOne (c : GenericCandidate) (r : Option String) : GenericCandidate :=
  match r with
  | some t => if t = "" then c else ⟨c.code, t, c.likelihood⟩
  | none => c

/-- The rephrasing loop body: look each candidate up in turn, failing as a
whole if any lookup raises. -/
def rephraseAll (candidates : List GenericCandidate)
    (lookup : String → Except String (Option String)) :
    Except String (List GenericCandidate) :=
  match candidates with
  | [] => .ok []
  | c :: cs =>
    match lookup c.code with
    | .error e => .error e
    | .ok r =>
      match rephraseAll cs lookup with
      | .error e => .error e
      | .ok rest => .ok (rephraseOne c r :: rest)

/-- `_apply_rephrasing`: return the candidates unchanged when rephrasing is
disabled; otherwise rewrite the descriptions via the lookup, falling back to
the unchanged input list if any exception is raised. -/
def applyRephrasing (candidates : List GenericCandidate)
    (lookup : String → Except String (Option String))
    (options : Option ClassificationOptions) : List GenericCandidate :=
  if !rephrasingEnabled options then candidates
  else
    match rephraseAll candidates lookup with
    | .ok l => l
    | .error _ => candidates

/-! ### SIC strategies (`api/routes/v1/classify.py`) -/

/-- The structured 422 detail payload raised on classification failure,
rendered as text: `{type: "classification_error", message, details}`. -/
def classificationErrorDetail (details : String) : String :=
  "classification_error: The LLM could not generate a valid classification: "
    ++ details

/-- The `except HTTPException: raise / except Exception: raise 422` pair at
the end of each SIC strategy: an `HTTPException` is re-raised unchanged, any
other exception is wrapped into a 422 classification failure. -/
def strategyWrap (e : PyErr) : PyErr :=
  match e with
  | .http s d => .http s d
  | .exc m =>
    .http 422 (classificationErrorDetail ("Response was empty or invalid JSON: " ++ m))

/-- Shortlist projection of the search results to `{code, title, distance}`
triples, as both SIC strategies perform. -/
def buildShortList (results : List SearchResult) : List SearchResult :=
  results.map (fun r => ⟨r.code, r.title, r.distance⟩)

/-- `_build_single_prompt_result`: interpret the single-shot LLM response
(`classified` from the `codable`/`classified` flags, code and description
only when classified), map the candidate list 1:1, then apply rephrasing
when the candidate list is non-empty. -/
def buildSinglePromptResult (req : ClassificationRequest)
    (lookup : String → Except String (Option String))
    (resp : SinglePromptResponse) : GenericClassificationResult :=
  let is_classified := resp.codable || resp.classified
  let sic_code := if is_classified then resp.sic_code else none
  let sic_descriptive := if is_classified then resp.sic_descriptive else none
  let sic_candidates := resp.sic_candidates.getD []
  let candidates := sic_candidates.map
    (fun c => GenericCandidate.mk c.sic_code c.sic_descriptive c.likelihood)
  let result : GenericClassificationResult :=
    ⟨"sic", is_classified, resp.followup, sic_code, sic_descriptive, candidates,
      resp.reasoning⟩
  if candidates ≠ [] then
    { result with candidates := applyRephrasing candidates lookup req.options }
  else result

/-- `_classify_sic_single_prompt`: search, invoke the single-shot LLM call
(whose failure raises a 422 with a "Single-prompt classification failed"
detail), build the result; a search failure falls to the strategy's outer
handler, which re-raises `HTTPException`s and wraps anything else as 422. -/
def classifySicSinglePrompt (req : ClassificationRequest) (w : SicWorld)
    (bodyId : String) :
    Except PyErr GenericClassificationResult × List CallEvent :=
  let searchEv := CallEvent.sicSearch req.org_description req.job_title
    req.job_description bodyId
  match w.searchOutcome with
  | .error e => (.error (strategyWrap e), [searchEv])
  | .ok results =>
    let short_list := buildShortList results
    let llmEv := CallEvent.llmSaRagSicCode (req.org_description.getD "") short_list
      req.job_title req.job_description
    match w.singleOutcome with
    | .error e =>
      (.error (.http 422 (classificationErrorDetail
        ("Single-prompt classification failed: " ++ e))), [searchEv, llmEv])
    | .ok resp =>
      (.ok (buildSinglePromptResult req w.rephraseLookup resp), [searchEv, llmEv])

/-- Candidate mapping of the two-step strategy: `alt_candidates` mapped 1:1
onto generic candidates. -/
def altToGeneric (c : AltCandidate) : GenericCandidate :=
  ⟨c.class_code, c.class_descriptive, c.likelihood⟩

/-- The "apply rephrasing if enabled" epilogue shared by both branches of
the two-step strategy (the rephrase client is always injected, so the guard
reduces to the candidate list being non-empty). -/
def withRephrasedCandidates (result : GenericClassificationResult)
    (lookup : String → Except String (Option String))
    (options : Option ClassificationOptions) : GenericClassificationResult :=
  if result.candidates ≠ [] then
    { result with candidates := applyRephrasing result.candidates lookup options }
  else result

/-- `_classify_sic_two_step`: search, call the unambiguous-step LLM endpoint
(failure raises 422 "Unambiguous classification failed"); if it is codable
with a truthy code, build a classified result from its fields and
`alt_candidates`; otherwise call formulate-open-question with the entire
`alt_candidates` list (failure raises 422 "Open question formulation
failed") and build an unclassified result whose `followup` comes from that
second call; finally apply rephrasing to non-empty candidate lists. -/
def classifySicTwoStep (req : ClassificationRequest) (w : SicWorld)
    (bodyId : String) :
    Except PyErr GenericClassificationResult × List CallEvent :=
  let searchEv := CallEvent.sicSearch req.org_description req.job_title
    req.job_description bodyId
  match w.searchOutcome with
  | .error e => (.error (strategyWrap e), [searchEv])
  | .ok results =>
    let short_list := buildShortList results
    let unambEv := CallEvent.llmUnambiguousSicCode (req.org_description.getD "")
      short_list req.job_title req.job_description
    match w.unambiguousOutcome with
    | .error e =>
      (.error (.http 422 (classificationErrorDetail
        ("Unambiguous classification failed: " ++ e))), [searchEv, unambEv])
    | .ok ur =>
      if ur.codable && truthyOptStr ur.class_code then
        let candidates := ur.alt_candidates.map altToGeneric
        let result : GenericClassificationResult :=
          ⟨"sic", true, none, ur.class_code, ur.class_descriptive, candidates,
            ur.reasoning⟩
        (.ok (withRephrasedCandidates result w.rephraseLookup req.options),
          [searchEv, unambEv])
      else
        let openQEv := CallEvent.llmFormulateOpenQuestion
          (req.org_description.getD "") req.job_title req.job_description
          ur.alt_candidates
        match w.openQuestionOutcome with
        | .error e =>
          (.error (.http 422 (classificationErrorDetail
            ("Open question formulation failed: " ++ e))),
            [searchEv, unambEv, openQEv])
        | .ok oq =>
          let candidates := ur.alt_candidates.map altToGeneric
          let result : GenericClassificationResult :=
            ⟨"sic", false, oq.followup, none, none, candidates, ur.reasoning⟩
          (.ok (withRephrasedCandidates result w.rephraseLookup req.options),
            [searchEv, unambEv, openQEv])

/-- `_classify_sic`: dispatch on the validated prompt version, raising a
fatal 500 configuration error on any other value. -/
def classifySic (req : ClassificationRequest) (w : SicWorld)
    (bodyId promptVersion : String) :
    Except PyErr GenericClassificationResult × List CallEvent :=
  if promptVersion = PROMPT_VERSION_V1V2 then
    classifySicSinglePrompt req w bodyId
  else if promptVersion = PROMPT_VERSION_V3 then
    classifySicTwoStep req w bodyId
  else
    (.error (.http 500 ("Unsupported prompt version: " ++ promptVersion)), [])

/-- `_classify_soc`: perform the (currently unused) vector-store search,
then return the placeholder constant result; the rephrasing-enabled flag is
computed but only logged. -/
def classifySoc (req : ClassificationRequest)
    (searchOutcome : Except PyErr (List SearchResult)) (bodyId : String) :
    Except PyErr GenericClassificationResult × List CallEvent :=
  let searchEv := CallEvent.socSearch req.org_description req.job_title
    req.job_description bodyId
  match searchOutcome with
  | .error e => (.error e, [searchEv])
  | .ok _ =>
    let result : GenericClassificationResult :=
      ⟨"soc", true, none, some "9111", some "Farm workers",
        [⟨"9111", "Farm workers", (1 : ℚ)⟩],
        "Placeholder SOC classification reasoning"⟩
    (.ok result, [searchEv])

/-! ### Endpoint (`classify_text` in the route module) -/

/-- `validate_prompt_version`: default (the configured value, falling back
to the module default when the setting is empty) when absent; a 400 when the
supplied value is not in the valid set; the supplied value otherwise. -/
def validatePromptVersion (settingsDefault : String)
    (prompt_version : Option String) : Except PyErr String :=
  match prompt_version with
  | none =>
    .ok (if settingsDefault ≠ "" then settingsDefault else DEFAULT_PROMPT_VERSION)
  | some v =>
    if v ∉ VALID_PROMPT_VERSIONS then
      .error (.http 400 ("Invalid prompt_version: " ++ v))
    else .ok v

/-- The applied-options map: a domain's `rephrased` flag is copied only when
that domain was requested and its options sub-block is present. -/
def buildAppliedOptions (req : ClassificationRequest) (o : ClassificationOptions) :
    AppliedOptions :=
  { sic :=
      if req.type = .sic ∨ req.type = .sic_soc then o.sic.map (fun s => s.rephrased)
      else none,
    soc :=
      if req.type = .soc ∨ req.type = .sic_soc then o.soc.map (fun s => s.rephrased)
      else none }

/-- Response assembly: the without-meta shape when the request had no
options block, the with-meta shape (llm selector plus applied options)
otherwise. -/
def buildResponse (req : ClassificationRequest)
    (results : List GenericClassificationResult) : ClassifyResponse :=
  match req.options with
  | none => .withoutMeta req.type.toStr results
  | some o => .withMeta req.type.toStr results ⟨req.llm, buildAppliedOptions req o⟩

/-- `classify_text`: derive the correlation id, validate the prompt version,
reject blank job title or description with a 400, then — inside a handler
that turns any exception (`HTTPException`s included) into a 500 — run the
SIC path when requested, then the SOC path when requested, and assemble the
response. -/
def classifyText (req : ClassificationRequest) (sicW : SicWorld)
    (socSearchOutcome : Except PyErr (List SearchResult))
    (settingsDefault : String) :
    Except PyErr ClassifyResponse × List CallEvent :=
  let bodyId := truncateIdentifier (some req.job_title)
    ++ truncateIdentifier (some req.job_description)
    ++ truncateIdentifier req.org_description
  match validatePromptVersion settingsDefault req.prompt_version with
  | .error e => (.error e, [])
  | .ok promptVersion =>
    if pyStrip req.job_title = "" || pyStrip req.job_description = "" then
      (.error (.http 400 "Job title and description cannot be empty"), [])
    else
      let sicStep : Except PyErr (List GenericClassificationResult) × List CallEvent :=
        if req.type = .sic ∨ req.type = .sic_soc then
          match classifySic req sicW bodyId promptVersion with
          | (.error e, evs) => (.error e, evs)
          | (.ok r, evs) => (.ok [r], evs)
        else (.ok [], [])
      match sicStep with
      | (.error e, evs) =>
        (.error (.http 500 ("Error during classification: " ++ e.toStr)), evs)
      | (.ok sicResults, evs1) =>
        if req.type = .soc ∨ req.type = .sic_soc then
          match classifySoc req socSearchOutcome bodyId with
          | (.error e, evs2) =>
            (.error (.http 500 ("Error during classification: " ++ e.toStr)),
              evs1 ++ evs2)
          | (.ok r, evs2) =>
            (.ok (buildResponse req (sicResults ++ [r])), evs1 ++ evs2)
        else (.ok (buildResponse req sicResults), evs1)

/-! ### SOC models (`api/models/soc_classify.py`) -/

/-- SOC candidate `{soc_code, soc_descriptive, likelihood}`. -/
structure SocCandidate where
  soc_code : String
  soc_descriptive : String
  likelihood : ℚ
deriving DecidableEq

/-- `SocClassificationResponse`: the SOC classification payload. -/
structure SocClassificationResponse where
  classified : Bool
  followup : Option String
  soc_code : Option String
  soc_description : Option String
  soc_candidates : List SocCandidate
  reasoning : String
  prompt_used : Option String
deriving DecidableEq

/-! ### SOC LLM service (`api/services/soc_llm_service.py`) -/

def DEFAULT_CHARS_LIMIT : Nat := 14000

def DEFAULT_CANDIDATES_LIMIT : Nat := 5

/-- Two-decimal rendering of a non-negative rational similarity score, a
rational-number model of the source's float formatting. -/
def fmt2dp (q : ℚ) : String :=
  let n := (round (q * 100)).toNat
  let i := n / 100
  let f := n % 100
  toString i ++ "." ++ (if f < 10 then "0" ++ toString f else toString f)

/-- `_prompt_candidate_list`: empty string on an empty shortlist; otherwise
the first `candidates_limit` entries formatted with their similarity score
(`max(0, 1 - distance)`), reduced to 3 entries when the total character
count exceeds the limit, joined with newlines. -/
def promptCandidateList (short_list : List SearchResult)
    (chars_limit candidates_limit : Nat) : String :=
  if short_list = [] then ""
  else
    let soc_candidates := (short_list.take candidates_limit).map (fun r =>
      let similarity := max 0 (1 - r.distance)
      "Code: " ++ r.code ++ ", Title: " ++ r.title ++ ", Relevance Score: "
        ++ fmt2dp similarity)
    let soc_candidates :=
      if chars_limit ≠ 0 ∧ (soc_candidates.map String.length).sum > chars_limit then
        soc_candidates.take 3
      else soc_candidates
    String.intercalate "\n" soc_candidates

/-- Stand-in for the output schema format instructions, an external library
constant interpolated verbatim into the call dictionary. -/
def FORMAT_INSTRUCTIONS : String := "format-instructions"

/-- The call dictionary handed to the SOC LLM chain. -/
structure CallDict where
  industry_descr : String
  job_title : String
  job_description : String
  soc_index : String
  format_instructions : String
deriving DecidableEq

/-- Textual rendering of a call dictionary, standing for Python `str()` of
the dict (stored in `prompt_used`). -/
def CallDict.toStr (cd : CallDict) : String :=
  "industry_descr=" ++ cd.industry_descr ++ ", job_title=" ++ cd.job_title
    ++ ", job_description=" ++ cd.job_description ++ ", soc_index="
    ++ cd.soc_index ++ ", format_instructions=" ++ cd.format_instructions

/-- `prep_call_dict` plus the format-instructions insertion: blank (after
strip) job title or description is replaced by "Unknown", and the formatted
candidate shortlist becomes the `soc_index`. -/
def mkCallDict (industry_descr job_title job_description : String)
    (short_list : List SearchResult) (candidates_limit : Nat) : CallDict :=
  let jt :=
    if pyStrip job_title = "" ∨ pyStrip job_title = " " then "Unknown" else job_title
  let jd :=
    if pyStrip job_description = "" ∨ pyStrip job_description = " " then "Unknown"
    else job_description
  { industry_descr := industry_descr, job_title := jt, job_description := jd,
    soc_index := promptCandidateList short_list DEFAULT_CHARS_LIMIT candidates_limit,
    format_instructions := FORMAT_INSTRUCTIONS }

/-- `SOCLLMService.sa_rag_soc_code`, with the LLM chain invocation and the
structured-output parsing passed as oracle functions; returns the Python
triple (response, shortlist, call dict — `none` standing for the empty dict
of the short-circuit case) together with the list of chain invocations
performed. -/
def saRagSocCode (industry_descr job_title job_description : String)
    (short_list : List SearchResult) (candidates_limit : Nat)
    (invokeChain : CallDict → Except String String)
    (parseOutput : String → Except String SocClassificationResponse) :
    (SocClassificationResponse × List SearchResult × Option CallDict)
      × List CallDict :=
  if short_list = [] then
    ((⟨false,
        some ("Unable to find relevant SOC codes. "
          ++ "Please provide more specific job information."),
        none, none, [], "No relevant SOC codes found in vector store search.",
        none⟩, [], none), [])
  else
    let call_dict := mkCallDict industry_descr job_title job_description
      short_list candidates_limit
    match invokeChain call_dict with
    | .error _ =>
      ((⟨false, some "Follow-up question not available due to error.", none, none,
          [], "Error from LLMChain, exit early", some call_dict.toStr⟩,
        short_list, some call_dict), [call_dict])
    | .ok raw =>
      match parseOutput raw with
      | .error parseError =>
        ((⟨false, some "Follow-up question not available due to parsing error.",
            none, none, [],
            "ERROR parse_error=<" ++ parseError ++ ">, response=<" ++ raw ++ ">",
            some call_dict.toStr⟩, short_list, some call_dict), [call_dict])
      | .ok validated => ((validated, short_list, some call_dict), [call_dict])

/-- The rephrase lookup as the route actually wires it: the (exception-free)
`get_rephrased_description` of a loaded rephrase table. -/
def clientLookup (table : List (String × String)) :
    String → Except String (Option String) :=
  fun code => .ok (getRephrasedDescription table code)

/-! ### Concrete fixtures used to evaluate the model on closed inputs -/

def c1Request : ClassificationRequest :=
  ⟨"gemini", .sic, "Electrician", "Installing electrical systems",
    some "Electrical contractor", some "v1v2", none⟩

def c1World : SicWorld :=
  ⟨.ok [⟨"43210", "Electrical installation", 1/20⟩], .error "LLM unavailable",
    .error "unused", .error "unused", fun _ => .ok none⟩

def c2Request : ClassificationRequest :=
  ⟨"gemini", .sic, "Plumber", "Fixing pipes", none, none, none⟩

def c2Response : SinglePromptResponse :=
  ⟨true, false, none, none, none, some [], "confident yet codeless"⟩

def c3Request : ClassificationRequest :=
  ⟨"gemini", .sic, "Fitter", "Assembling parts", none, none, none⟩

def c3RespA : SinglePromptResponse :=
  ⟨true, false, some "12345", some "Widget manufacture", some "Which kind?",
    some [], "mixed signals"⟩

def c3RespB : SinglePromptResponse :=
  ⟨false, false, none, none, none, some [], "nothing matched"⟩

def c3WorldA : SicWorld :=
  ⟨.ok [], .ok c3RespA, .error "unused", .error "unused", fun _ => .ok none⟩

def c3WorldB : SicWorld :=
  ⟨.ok [], .ok c3RespB, .error "unused", .error "unused", fun _ => .ok none⟩

def c4Request : ClassificationRequest :=
  ⟨"gemini", .sic, "Electrician", "Installs wiring", some "Contractor",
    some "v3", none⟩

def c4Unambiguous : UnambiguousResponse :=
  ⟨false, none, none,
    [⟨"43210", "Electrical installation", 7/10⟩,
     ⟨"43290", "Other installation", 3/10⟩], "ambiguous between two codes"⟩

def c4World : SicWorld :=
  ⟨.ok [⟨"43210", "Electrical installation", 1/20⟩], .error "unused",
    .ok c4Unambiguous, .ok ⟨some "What do you install?"⟩, fun _ => .ok none⟩

def c5ShortList : List SearchResult := [⟨"9111", "Farm workers", 1/10⟩]

def c5InvokeErr : CallDict → Except String String := fun _ => .error "chain down"

def c5InvokeOk : CallDict → Except String String := fun _ => .ok "not json"

def c5ParseErr : String → Except String SocClassificationResponse :=
  fun _ => .error "bad json"

def c7Request : ClassificationRequest :=
  ⟨"chat-gpt", .sic, "Electrician", "Installing systems", some "Contractor",
    some "v3", some ⟨some ⟨true⟩, none⟩⟩

def c7RequestNoOpts : ClassificationRequest :=
  { c7Request with options := none }

def c7World : SicWorld :=
  ⟨.ok [], .error "unused",
    .ok ⟨true, some "43210", some "Electrical installation", [], "clear match"⟩,
    .error "unused", fun _ => .ok none⟩

def c9Request : ClassificationRequest :=
  ⟨"gemini", .sic_soc, "   ", "Install things", none, none, none⟩

def c9World : SicWorld :=
  ⟨.ok [], .error "unused", .error "unused", .error "unused", fun _ => .ok none⟩

def c8Table : List (String × String) := [("01110", "Crop growing")]

def c8Cands : List GenericCandidate :=
  [⟨"01110", "Growing of cereals", 9/10⟩, ⟨"99999", "Other services", 1/10⟩]

def c10Cands : List GenericCandidate := [⟨"01110", "Original text", 1/2⟩]

def c10BadLookup : String → Except String (Option String) := fun _ => .error "boom"

def c10OptsOff : Option ClassificationOptions := some ⟨some ⟨false⟩, none⟩

/-! ### Helper lemmas -/

theorem rephraseOne_code (c : GenericCandidate) (r : Option String) :
    (rephraseOne c r).code = c.code := by
  cases r with
  | none => rfl
  | some t =>
    simp only [rephraseOne]
    split <;> rfl

theorem rephraseOne_likelihood (c : GenericCandidate) (r : Option String) :
    (rephraseOne c r).likelihood = c.likelihood := by
  cases r with
  | none => rfl
  | some t =>
    simp only [rephraseOne]
    split <;> rfl

theorem rephraseAll_ok_forall₂ {lookup : String → Except String (Option String)} :
    ∀ {cs l : List GenericCandidate}, rephraseAll cs lookup = .ok l →
      List.Forall₂ (fun a b => a.code = b.code ∧ a.likelihood = b.likelihood) l cs := by
  intro cs
  induction cs with
  | nil =>
    intro l h
    simp only [rephraseAll, Except.ok.injEq] at h
    subst h
    exact List.Forall₂.nil
  | cons c cs ih =>
    intro l h
    simp only [rephraseAll] at h
    cases hl : lookup c.code with
    | error e => rw [hl] at h; exact absurd h (by simp)
    | ok r =>
      rw [hl] at h
      cases hr : rephraseAll cs lookup with
      | error e => rw [hr] at h; exact absurd h (by simp)
      | ok rest =>
        rw [hr] at h
        simp only [Except.ok.injEq] at h
        subst h
        exact List.Forall₂.cons ⟨rephraseOne_code c r, rephraseOne_likelihood c r⟩
          (ih hr)

theorem applyRephrasing_forall₂ (cs : List GenericCandidate)
    (lookup : String → Except String (Option String))
    (opts : Option ClassificationOptions) :
    List.Forall₂ (fun a b => a.code = b.code ∧ a.likelihood = b.likelihood)
      (applyRephrasing cs lookup opts) cs := by
  unfold applyRephrasing
  split
  · exact List.forall₂_same.2 (fun x _ => ⟨rfl, rfl⟩)
  · cases h : rephraseAll cs lookup with
    | error e => exact List.forall₂_same.2 (fun x _ => ⟨rfl, rfl⟩)
    | ok l => exact rephraseAll_ok_forall₂ h

theorem rephraseAll_pure (g : String → Option String) :
    ∀ cs : List GenericCandidate,
      rephraseAll cs (fun s => .ok (g s)) =
        .ok (cs.map (fun c => rephraseOne c (g c.code))) := by
  intro cs
  induction cs with
  | nil => rfl
  | cons c cs ih => simp [rephraseAll, ih]

theorem lookup_snd_mem :
    ∀ {t : List (String × String)} {k v : String},
      t.lookup k = some v → v ∈ t.map Prod.snd := by
  intro t
  induction t with
  | nil => intro k v h; exact absurd h (by simp [List.lookup])
  | cons p t ih =>
    intro k v h
    simp only [List.lookup] at h
    cases hk : k == p.1 with
    | true =>
      simp only [hk, Option.some.injEq] at h
      subst h
      simp
    | false =>
      simp only [hk] at h
      simp only [List.map_cons, List.mem_cons]
      exact Or.inr (ih h)

theorem getRephrasedDescription_mem {table : List (String × String)}
    {code t : String} (h : getRephrasedDescription table code = some t) :
    t ∈ table.map Prod.snd := by
  simp only [getRephrasedDescription] at h
  cases hl : table.lookup (pyStrip code) with
  | some d =>
    rw [hl] at h
    simp only [Option.some.injEq] at h
    subst h
    exact lookup_snd_mem hl
  | none =>
    rw [hl] at h
    dsimp only at h
    by_cases hlen : (pyStrip code).length = FOUR_DIGIT_SIC_CODE
    · rw [if_pos hlen] at h
      exact lookup_snd_mem h
    · rw [if_neg hlen] at h
      exact absurd h (by simp)

theorem buildSinglePromptResult_classified (req : ClassificationRequest)
    (lookup : String → Except String (Option String))
    (resp : SinglePromptResponse) :
    (buildSinglePromptResult req lookup resp).classified =
      (resp.codable || resp.classified) := by
  simp only [buildSinglePromptResult]
  split <;> rfl

theorem buildSinglePromptResult_code (req : ClassificationRequest)
    (lookup : String → Except String (Option String))
    (resp : SinglePromptResponse) :
    (buildSinglePromptResult req lookup resp).code =
      (if resp.codable || resp.classified then resp.sic_code else none) := by
  simp only [buildSinglePromptResult]
  split <;> rfl

theorem buildSinglePromptResult_description (req : ClassificationRequest)
    (lookup : String → Except String (Option String))
    (resp : SinglePromptResponse) :
    (buildSinglePromptResult req lookup resp).description =
      (if resp.codable || resp.classified then resp.sic_descriptive else none) := by
  simp only [buildSinglePromptResult]
  split <;> rfl

theorem buildSinglePromptResult_followup (req : ClassificationRequest)
    (lookup : String → Except String (Option String))
    (resp : SinglePromptResponse) :
    (buildSinglePromptResult req lookup resp).followup = resp.followup := by
  simp only [buildSinglePromptResult]
  split <;> rfl

theorem withRephrasedCandidates_classified (r : GenericClassificationResult)
    (lookup : String → Except String (Option String))
    (opts : Option ClassificationOptions) :
    (withRephrasedCandidates r lookup opts).classified = r.classified := by
  simp only [withRephrasedCandidates]
  split <;> rfl

theorem withRephrasedCandidates_code (r : GenericClassificationResult)
    (lookup : String → Except String (Option String))
    (opts : Option ClassificationOptions) :
    (withRephrasedCandidates r lookup opts).code = r.code := by
  simp only [withRephrasedCandidates]
  split <;> rfl

theorem withRephrasedCandidates_description (r : GenericClassificationResult)
    (lookup : String → Except String (Option String))
    (opts : Option ClassificationOptions) :
    (withRephrasedCandidates r lookup opts).description = r.description := by
  simp only [withRephrasedCandidates]
  split <;> rfl

theorem withRephrasedCandidates_followup (r : GenericClassificationResult)
    (lookup : String → Except String (Option String))
    (opts : Option ClassificationOptions) :
    (withRephrasedCandidates r lookup opts).followup = r.followup := by
  simp only [withRephrasedCandidates]
  split <;> rfl

theorem withRephrasedCandidates_forall₂ (r : GenericClassificationResult)
    (lookup : String → Except String (Option String))
    (opts : Option ClassificationOptions) :
    List.Forall₂ (fun a b => a.code = b.code ∧ a.likelihood = b.likelihood)
      (withRephrasedCandidates r lookup opts).candidates r.candidates := by
  simp only [withRephrasedCandidates]
  split
  · exact applyRephrasing_forall₂ r.candidates lookup opts
  · exact List.forall₂_same.2 (fun x _ => ⟨rfl, rfl⟩)

theorem validatePromptVersion_error_400 {sd : String} {pv : Option String}
    {e : PyErr} (h : validatePromptVersion sd pv = .error e) :
    ∃ d, e = .http 400 d := by
  unfold validatePromptVersion at h
  cases pv with
  | none => simp at h
  | some v =>
    dsimp only at h
    by_cases hv : v ∈ VALID_PROMPT_VERSIONS
    · simp [hv] at h
    · simp only [hv, not_false_iff, if_true, Except.error.injEq] at h
      exact ⟨_, h.symm⟩

theorem classifyText_ok_shape {req : ClassificationRequest} {w : SicWorld}
    {socS : Except PyErr (List SearchResult)} {sd : String}
    {resp : ClassifyResponse}
    (h : (classifyText req w socS sd).1 = .ok resp) :
    ∃ results, resp = buildResponse req results := by
  simp only [classifyText] at h
  split at h
  · simp at h
  · split at h
    · simp at h
    · split at h
      · simp at h
      · split at h
        · split at h
          · simp at h
          · dsimp only at h
            injection h with h2
            exact ⟨_, h2.symm⟩
        · dsimp only at h
          injection h with h2
          exact ⟨_, h2.symm⟩

/-! ### Claim theorems -/

/-- C10: `_apply_rephrasing` is a frame operation on the candidate list: the
output matches the input element by element (same length and order, same
`code` and `likelihood`; only `descriptive` may differ), and the exact input
list is returned unchanged when rephrasing is disabled or when the lookup
raises an exception. -/
theorem apply_rephrasing_frame (cs : List GenericCandidate)
    (lookup : String → Except String (Option String))
    (opts : Option ClassificationOptions) :
    List.Forall₂ (fun a b => a.code = b.code ∧ a.likelihood = b.likelihood)
      (applyRephrasing cs lookup opts) cs ∧
    (rephrasingEnabled opts = false → applyRephrasing cs lookup opts = cs) ∧
    (∀ e, rephraseAll cs lookup = .error e → applyRephrasing cs lookup opts = cs) := by
  refine ⟨applyRephrasing_forall₂ cs lookup opts, ?_, ?_⟩
  · intro hd
    simp [applyRephrasing, hd]
  · intro e he
    simp only [applyRephrasing, he]
    split <;> rfl

/-- C10 witness: on a concrete list, disabled options and a raising lookup
each return the exact input list. -/
theorem apply_rephrasing_frame_witness :
    (rephrasingEnabled c10OptsOff = false ∧
      applyRephrasing c10Cands c10BadLookup c10OptsOff = c10Cands) ∧
    (rephraseAll c10Cands c10BadLookup = .error "boom" ∧
      applyRephrasing c10Cands c10BadLookup none = c10Cands) :=
  ⟨⟨rfl, (apply_rephrasing_frame c10Cands c10BadLookup c10OptsOff).2.1 rfl⟩,
    ⟨rfl, (apply_rephrasing_frame c10Cands c10BadLookup none).2.2 "boom" rfl⟩⟩

/-- C8: rephrasing defaults to on (no options block, or no `sic` sub-block)
and then replaces each candidate description by the rephrase-table entry for
its code when one exists (the loaded table only holds non-empty entries),
keeping the LLM-reported value otherwise; an explicit
`options.sic.rephrased = false` returns the list unchanged. -/
theorem rephrasing_decision_policy (cs : List GenericCandidate)
    (table : List (String × String)) :
    (∀ opts : Option ClassificationOptions,
      (opts = none ∨ ∃ o, opts = some o ∧ o.sic = none) →
      (∀ p ∈ table, p.2 ≠ "") →
      applyRephrasing cs (clientLookup table) opts =
        cs.map (fun c =>
          match getRephrasedDescription table c.code with
          | some t => ⟨c.code, t, c.likelihood⟩
          | none => c)) ∧
    (∀ socO : Option DomainOptions,
      applyRephrasing cs (clientLookup table) (some ⟨some ⟨false⟩, socO⟩) = cs) := by
  constructor
  · intro opts hdef htable
    have hen : rephrasingEnabled opts = true := by
      rcases hdef with h | ⟨o, rfl, hsic⟩
      · subst h; rfl
      · simp [rephrasingEnabled, hsic]
    have hall := rephraseAll_pure (getRephrasedDescription table) cs
    simp only [applyRephrasing, hen, Bool.not_true, Bool.false_eq_true, if_false]
    rw [show (fun s => Except.ok (getRephrasedDescription table s) :
        String → Except String (Option String)) = clientLookup table from rfl] at hall
    rw [hall]
    refine List.map_congr_left (fun c _ => ?_)
    cases hg : getRephrasedDescription table c.code with
    | none => simp [rephraseOne, hg]
    | some t =>
      obtain ⟨p, hp, hpt⟩ := List.mem_map.mp (getRephrasedDescription_mem hg)
      have ht : t ≠ "" := hpt ▸ htable p hp
      simp [rephraseOne, hg, ht]
  · intro socO
    simp [applyRephrasing, rephrasingEnabled]

/-- C8 witness: with no options, a candidate whose code has a table entry is
rewritten to that entry and one without is kept; with
`options.sic.rephrased = false` the list is unchanged. -/
theorem rephrasing_decision_policy_witness :
    (applyRephrasing c8Cands (clientLookup c8Table) none =
      [⟨"01110", "Crop growing", 9/10⟩, ⟨"99999", "Other services", 1/10⟩]) ∧
    (applyRephrasing c8Cands (clientLookup c8Table)
      (some ⟨some ⟨false⟩, none⟩) = c8Cands) := by
  constructor
  · have h := (rephrasing_decision_policy c8Cands c8Table).1 none (Or.inl rfl)
      (by decide)
    rw [h]
    rfl
  · exact (rephrasing_decision_policy c8Cands c8Table).2 none

/-- C2 counterexample: a single-shot LLM response reporting `codable = true`
with no code present still yields `classified = true` (with a null code),
refuting the claim that `classified` is true only when a code is present. -/
theorem single_prompt_flag_without_code_still_classified :
    c2Response.codable = true ∧ c2Response.sic_code = none ∧
    (buildSinglePromptResult c2Request (fun _ => .ok none) c2Response).classified
      = true ∧
    (buildSinglePromptResult c2Request (fun _ => .ok none) c2Response).code
      = none :=
  ⟨rfl, rfl, rfl, rfl⟩

/-- C2 amended: the single-prompt result's `classified` equals the
disjunction of the response's `codable` and `classified` flags alone, with
no code-presence conjunct; the code field is passed through (possibly null)
exactly when that disjunction holds. -/
theorem single_prompt_classified_iff_flags (req : ClassificationRequest)
    (lookup : String → Except String (Option String))
    (resp : SinglePromptResponse) :
    (buildSinglePromptResult req lookup resp).classified =
      (resp.codable || resp.classified) ∧
    (buildSinglePromptResult req lookup resp).code =
      (if resp.codable || resp.classified then resp.sic_code else none) :=
  ⟨buildSinglePromptResult_classified req lookup resp,
    buildSinglePromptResult_code req lookup resp⟩

/-- C3 counterexample: the single-prompt path can return a result with
`classified = true` and a non-null `followup`, and one with
`classified = false` and a null `followup`, refuting both directions of the
claimed shape invariant. -/
theorem result_shape_invariant_counterexample :
    (classifySicSinglePrompt c3Request c3WorldA "cid").1 =
      .ok ⟨"sic", true, some "Which kind?", some "12345",
        some "Widget manufacture", [], "mixed signals"⟩ ∧
    (classifySicSinglePrompt c3Request c3WorldB "cid").1 =
      .ok ⟨"sic", false, none, none, none, [], "nothing matched"⟩ :=
  ⟨rfl, rfl⟩

/-- C3 amended: every result produced by the single-prompt SIC path, the
two-step SIC path or the SOC path with `classified = false` has null `code`
and null `description`. -/
theorem unclassified_results_have_null_code_description
    (req : ClassificationRequest) (w : SicWorld)
    (socS : Except PyErr (List SearchResult)) (bodyId : String)
    (r : GenericClassificationResult)
    (h : (classifySicSinglePrompt req w bodyId).1 = .ok r ∨
         (classifySicTwoStep req w bodyId).1 = .ok r ∨
         (classifySoc req socS bodyId).1 = .ok r)
    (hc : r.classified = false) :
    r.code = none ∧ r.description = none := by
  rcases h with h | h | h
  · unfold classifySicSinglePrompt at h
    cases hs : w.searchOutcome with
    | error e => rw [hs] at h; simp at h
    | ok results =>
      rw [hs] at h
      dsimp only at h
      cases hl : w.singleOutcome with
      | error e => rw [hl] at h; simp at h
      | ok resp =>
        rw [hl] at h
        simp only [Except.ok.injEq] at h
        subst h
        rw [buildSinglePromptResult_classified] at hc
        refine ⟨?_, ?_⟩
        · rw [buildSinglePromptResult_code, hc]
          rfl
        · rw [buildSinglePromptResult_description, hc]
          rfl
  · unfold classifySicTwoStep at h
    cases hs : w.searchOutcome with
    | error e => rw [hs] at h; simp at h
    | ok results =>
      rw [hs] at h
      dsimp only at h
      cases hu : w.unambiguousOutcome with
      | error e => rw [hu] at h; simp at h
      | ok ur =>
        rw [hu] at h
        dsimp only at h
        by_cases hcod : (ur.codable && truthyOptStr ur.class_code) = true
        · rw [if_pos hcod] at h
          simp only [Except.ok.injEq] at h
          subst h
          rw [withRephrasedCandidates_classified] at hc
          exact absurd hc (by simp)
        · rw [if_neg hcod] at h
          cases ho : w.openQuestionOutcome with
          | error e => rw [ho] at h; simp at h
          | ok oq =>
            rw [ho] at h
            simp only [Except.ok.injEq] at h
            subst h
            exact ⟨withRephrasedCandidates_code _ _ _,
              withRephrasedCandidates_description _ _ _⟩
  · unfold classifySoc at h
    cases hs : socS with
    | error e => rw [hs] at h; simp at h
    | ok results =>
      rw [hs] at h
      simp only [Except.ok.injEq] at h
      subst h
      exact absurd hc (by simp)

/-- C3 amended, witness: a concrete unclassified single-prompt run whose
result indeed has null code and description. -/
theorem unclassified_results_witness :
    (classifySicSinglePrompt c3Request c3WorldB "cid").1 =
      .ok ⟨"sic", false, none, none, none, [], "nothing matched"⟩ ∧
    (⟨"sic", false, none, none, none, [],
      "nothing matched"⟩ : GenericClassificationResult).code = none ∧
    (⟨"sic", false, none, none, none, [],
      "nothing matched"⟩ : GenericClassificationResult).description = none := by
  refine ⟨rfl, ?_, ?_⟩
  · exact (unclassified_results_have_null_code_description c3Request c3WorldB
      (.ok []) "cid" _ (Or.inl rfl) rfl).1
  · exact (unclassified_results_have_null_code_description c3Request c3WorldB
      (.ok []) "cid" _ (Or.inl rfl) rfl).2

/-- C6: the SOC path wired into the endpoint returns the same constant
placeholder result — classified, code "9111", description "Farm workers",
one candidate with likelihood 1 and a placeholder reasoning — for every
request and every successful vector-store outcome. -/
theorem classify_soc_returns_constant_placeholder (req : ClassificationRequest)
    (searchResults : List SearchResult) (bodyId : String) :
    (classifySoc req (.ok searchResults) bodyId).1 =
      .ok ⟨"soc", true, none, some "9111", some "Farm workers",
        [⟨"9111", "Farm workers", 1⟩],
        "Placeholder SOC classification reasoning"⟩ :=
  rfl

/-- C5: `sa_rag_soc_code` returns (never raises) the degraded
`classified = false` shape — fixed explanatory followup, null code and
description, no candidates, error context in the reasoning — when the
shortlist is empty (in which case the LLM chain is never invoked), when the
chain invocation raises, and when the output parsing fails. -/
theorem soc_rag_degraded_never_raises (industry jt jd : String)
    (sl : List SearchResult) (cl : Nat)
    (invokeChain : CallDict → Except String String)
    (parseOutput : String → Except String SocClassificationResponse) :
    (sl = [] →
      saRagSocCode industry jt jd sl cl invokeChain parseOutput =
        ((⟨false,
            some ("Unable to find relevant SOC codes. "
              ++ "Please provide more specific job information."),
            none, none, [], "No relevant SOC codes found in vector store search.",
            none⟩, [], none), [])) ∧
    (∀ e, sl ≠ [] → invokeChain (mkCallDict industry jt jd sl cl) = .error e →
      saRagSocCode industry jt jd sl cl invokeChain parseOutput =
        ((⟨false, some "Follow-up question not available due to error.", none,
            none, [], "Error from LLMChain, exit early",
            some (mkCallDict industry jt jd sl cl).toStr⟩, sl,
          some (mkCallDict industry jt jd sl cl)),
          [mkCallDict industry jt jd sl cl])) ∧
    (∀ raw pe, sl ≠ [] →
      invokeChain (mkCallDict industry jt jd sl cl) = .ok raw →
      parseOutput raw = .error pe →
      saRagSocCode industry jt jd sl cl invokeChain parseOutput =
        ((⟨false, some "Follow-up question not available due to parsing error.",
            none, none, [],
            "ERROR parse_error=<" ++ pe ++ ">, response=<" ++ raw ++ ">",
            some (mkCallDict industry jt jd sl cl).toStr⟩, sl,
          some (mkCallDict industry jt jd sl cl)),
          [mkCallDict industry jt jd sl cl])) := by
  refine ⟨?_, ?_, ?_⟩
  · intro hsl
    simp [saRagSocCode, hsl]
  · intro e hne hinv
    simp [saRagSocCode, hne, hinv]
  · intro raw pe hne hinv hp
    simp [saRagSocCode, hne, hinv, hp]

/-- C5 witness: concrete inputs exercising the empty-shortlist short-circuit
(no chain invocation), the chain-error case and the parse-error case. -/
theorem soc_rag_degraded_never_raises_witness :
    ((saRagSocCode "farming" "farmer" "tends crops" [] 5 c5InvokeErr
        c5ParseErr).1.1.classified = false ∧
      (saRagSocCode "farming" "farmer" "tends crops" [] 5 c5InvokeErr
        c5ParseErr).2 = []) ∧
    ((saRagSocCode "farming" "farmer" "tends crops" c5ShortList 5 c5InvokeErr
        c5ParseErr).1.1.classified = false ∧
      (saRagSocCode "farming" "farmer" "tends crops" c5ShortList 5 c5InvokeErr
        c5ParseErr).1.1.reasoning = "Error from LLMChain, exit early") ∧
    ((saRagSocCode "farming" "farmer" "tends crops" c5ShortList 5 c5InvokeOk
        c5ParseErr).1.1.followup =
      some "Follow-up question not available due to parsing error.") := by
  have h1 := (soc_rag_degraded_never_raises "farming" "farmer" "tends crops" []
    5 c5InvokeErr c5ParseErr).1 rfl
  have h2 := (soc_rag_degraded_never_raises "farming" "farmer" "tends crops"
    c5ShortList 5 c5InvokeErr c5ParseErr).2.1 "chain down" (by decide) rfl
  have h3 := (soc_rag_degraded_never_raises "farming" "farmer" "tends crops"
    c5ShortList 5 c5InvokeOk c5ParseErr).2.2 "not json" "bad json" (by decide)
    rfl rfl
  exact ⟨⟨congrArg (fun x => x.1.1.classified) h1,
      congrArg (fun x => x.2) h1⟩,
    ⟨congrArg (fun x => x.1.1.classified) h2,
      congrArg (fun x => x.1.1.reasoning) h2⟩,
    congrArg (fun x => x.1.1.followup) h3⟩

/-- C4: whenever the unambiguous step reports not codable (or codable with a
falsy code) and returns alternative candidates, the two-step strategy calls
formulate-open-question with exactly the complete `alt_candidates` list
(same elements, same order), and the unclassified result takes its
`followup` from the open-question response with `candidates` mapped 1:1
(same length and order, matching code and likelihood) from those same
`alt_candidates`. -/
theorem two_step_open_question_receives_all_alt_candidates
    (req : ClassificationRequest) (w : SicWorld) (bodyId : String)
    (results : List SearchResult) (ur : UnambiguousResponse)
    (oq : OpenQuestionResponse)
    (hs : w.searchOutcome = .ok results)
    (hu : w.unambiguousOutcome = .ok ur)
    (hnc : (ur.codable && truthyOptStr ur.class_code) = false)
    (ho : w.openQuestionOutcome = .ok oq)
    (hn : 1 ≤ ur.alt_candidates.length) :
    (classifySicTwoStep req w bodyId).2 =
      [CallEvent.sicSearch req.org_description req.job_title
        req.job_description bodyId,
       CallEvent.llmUnambiguousSicCode (req.org_description.getD "")
        (buildShortList results) req.job_title req.job_description,
       CallEvent.llmFormulateOpenQuestion (req.org_description.getD "")
        req.job_title req.job_description ur.alt_candidates] ∧
    ∃ r, (classifySicTwoStep req w bodyId).1 = .ok r ∧
      r.classified = false ∧ r.followup = oq.followup ∧
      List.Forall₂
        (fun c a => c.code = a.class_code ∧ c.likelihood = a.likelihood)
        r.candidates ur.alt_candidates := by
  have hrun : classifySicTwoStep req w bodyId =
      (.ok (withRephrasedCandidates
        ⟨"sic", false, oq.followup, none, none,
          ur.alt_candidates.map altToGeneric, ur.reasoning⟩
        w.rephraseLookup req.options),
       [CallEvent.sicSearch req.org_description req.job_title
          req.job_description bodyId,
        CallEvent.llmUnambiguousSicCode (req.org_description.getD "")
          (buildShortList results) req.job_title req.job_description,
        CallEvent.llmFormulateOpenQuestion (req.org_description.getD "")
          req.job_title req.job_description ur.alt_candidates]) := by
    simp only [classifySicTwoStep, hs, hu, ho, hnc, Bool.false_eq_true,
      if_false]
  refine ⟨congrArg Prod.snd hrun, _, congrArg Prod.fst hrun, ?_, ?_, ?_⟩
  · exact withRephrasedCandidates_classified _ _ _
  · exact withRephrasedCandidates_followup _ _ _
  · have hf := withRephrasedCandidates_forall₂
      ⟨"sic", false, oq.followup, none, none,
        ur.alt_candidates.map altToGeneric, ur.reasoning⟩
      w.rephraseLookup req.options
    exact List.forall₂_map_right_iff.mp hf

/-- C4 witness: a concrete not-codable run with two alternative candidates;
the open-question event records exactly those two candidates and the result
is unclassified with the open-question followup. -/
theorem two_step_open_question_witness :
    (classifySicTwoStep c4Request c4World "cid").2 =
      [CallEvent.sicSearch (some "Contractor") "Electrician" "Installs wiring"
        "cid",
       CallEvent.llmUnambiguousSicCode "Contractor"
        (buildShortList [⟨"43210", "Electrical installation", 1/20⟩])
        "Electrician" "Installs wiring",
       CallEvent.llmFormulateOpenQuestion "Contractor" "Electrician"
        "Installs wiring" c4Unambiguous.alt_candidates] ∧
    ∃ r, (classifySicTwoStep c4Request c4World "cid").1 = .ok r ∧
      r.classified = false ∧ r.followup = some "What do you install?" ∧
      List.Forall₂
        (fun c a => c.code = a.class_code ∧ c.likelihood = a.likelihood)
        r.candidates c4Unambiguous.alt_candidates :=
  two_step_open_question_receives_all_alt_candidates c4Request c4World "cid"
    [⟨"43210", "Electrical installation", 1/20⟩] c4Unambiguous
    ⟨some "What do you install?"⟩ rfl rfl (by decide) rfl (by decide)

/-- C9: a request whose job title or job description is blank after
stripping is rejected with a 400 and the outbound-call trace is empty — no
vector-store search or LLM invocation happens before the rejection. -/
theorem blank_input_rejected_before_any_outbound_call
    (req : ClassificationRequest) (w : SicWorld)
    (socS : Except PyErr (List SearchResult)) (sd : String)
    (h : pyStrip req.job_title = "" ∨ pyStrip req.job_description = "") :
    errStatus (classifyText req w socS sd).1 = some 400 ∧
    (classifyText req w socS sd).2 = [] := by
  unfold classifyText
  cases hv : validatePromptVersion sd req.prompt_version with
  | error e =>
    obtain ⟨d, rfl⟩ := validatePromptVersion_error_400 hv
    exact ⟨rfl, rfl⟩
  | ok pv =>
    have hb : (pyStrip req.job_title = "" || pyStrip req.job_description = "")
        = true := by
      rcases h with h | h <;> simp [h]
    simp only [hb]
    exact ⟨rfl, rfl⟩

/-- C9 witness: a concrete whitespace-only job title yields a 400 with an
empty call trace. -/
theorem blank_input_rejected_witness :
    pyStrip c9Request.job_title = "" ∧
    errStatus (classifyText c9Request c9World (.ok []) "v1v2").1 = some 400 ∧
    (classifyText c9Request c9World (.ok []) "v1v2").2 = [] :=
  ⟨rfl, blank_input_rejected_before_any_outbound_call c9Request c9World
    (.ok []) "v1v2" (Or.inl rfl)⟩

/-- C1 (code-bug evidence): on a request whose single-prompt LLM call
raises, the SIC strategy raises an HTTP 422 classification failure, but the
endpoint's catch-all handler — which has no `except HTTPException` arm —
re-wraps it and surfaces a 500 to the caller instead of propagating the
422. -/
theorem strategy_422_rewrapped_as_500_by_endpoint :
    errStatus (classifySicSinglePrompt c1Request c1World "cid").1 = some 422 ∧
    errStatus (classifyText c1Request c1World (.ok []) "v1v2").1 = some 500 :=
  ⟨rfl, rfl⟩

/-- C7: a successful response carries no `meta` key at all when the request
had no options block; with an options block, `meta.llm` is the requested LLM
selector and `applied_options` holds the `rephrased` flag exactly for each
domain that was requested and had an options sub-block. -/
theorem meta_present_iff_options (req : ClassificationRequest) (w : SicWorld)
    (socS : Except PyErr (List SearchResult)) (sd : String)
    (resp : ClassifyResponse)
    (h : (classifyText req w socS sd).1 = .ok resp) :
    (req.options = none → resp.hasMetaKey = false) ∧
    (∀ o, req.options = some o →
      resp.metaField = some ⟨req.llm,
        ⟨if req.type = .sic ∨ req.type = .sic_soc then
            o.sic.map (fun s => s.rephrased)
          else none,
         if req.type = .soc ∨ req.type = .sic_soc then
            o.soc.map (fun s => s.rephrased)
          else none⟩⟩) := by
  obtain ⟨results, rfl⟩ := classifyText_ok_shape h
  constructor
  · intro ho
    simp [buildResponse, ho, ClassifyResponse.hasMetaKey,
      ClassifyResponse.metaField]
  · intro o ho
    simp [buildResponse, ho, ClassifyResponse.metaField, buildAppliedOptions]

/-- C7 witness: the same classified run once without options (response is
the without-meta variant) and once with `options.sic.rephrased = true`
(response carries `meta` with the llm selector and the sic applied
option). -/
theorem meta_present_iff_options_witness :
    ((classifyText c7RequestNoOpts c7World (.ok []) "v1v2").1 =
      .ok (.withoutMeta "sic"
        [⟨"sic", true, none, some "43210", some "Electrical installation", [],
          "clear match"⟩]) ∧
      (ClassifyResponse.withoutMeta "sic"
        [⟨"sic", true, none, some "43210", some "Electrical installation", [],
          "clear match"⟩]).hasMetaKey = false) ∧
    ((classifyText c7Request c7World (.ok []) "v1v2").1 =
      .ok (.withMeta "sic"
        [⟨"sic", true, none, some "43210", some "Electrical installation", [],
          "clear match"⟩]
        ⟨"chat-gpt", ⟨some true, none⟩⟩) ∧
      (ClassifyResponse.withMeta "sic"
        [⟨"sic", true, none, some "43210", some "Electrical installation", [],
          "clear match"⟩]
        ⟨"chat-gpt", ⟨some true, none⟩⟩).metaField =
          some ⟨"chat-gpt", ⟨some true, none⟩⟩) := by
  constructor
  · refine ⟨rfl, ?_⟩
    exact (meta_present_iff_options c7RequestNoOpts c7World (.ok []) "v1v2"
      _ rfl).1 rfl
  · refine ⟨rfl, ?_⟩
    exact (meta_present_iff_options c7Request c7World (.ok []) "v1v2"
      _ rfl).2 ⟨some ⟨true⟩, none⟩ rfl

end SurveyAssist
